import Mathlib

/-!
# Verification of the BDC-STAC query/response core (`bdc_stac/controller.py`)

Shallow embedding of the query-filter translation engine and response-assembly
pipeline of the `bdc_stac` controller.  SQLAlchemy filter expressions are
embedded as a small condition AST (`Cond`) built exactly the way the Python
code builds its `where` list; database execution is an explicit evaluator over
in-memory tables.  Python `float` columns are modelled as `ℚ` (all values in
scope are exact decimals), JSON values as `JVal`, timestamps as their RFC-3339
string renderings compared lexicographically (the fixed-width format makes
lexicographic and chronological order agree, and the source compares the
datetime columns directly against the request strings).
-/

set_option autoImplicit false

/-- JSON-like values stored in the free-form `metadata` / `properties` /
`assets` mappings (Python `dict` values). -/
inductive JVal where
  | null
  | bool (b : Bool)
  | num (q : ℚ)
  | str (s : String)
  | arr (xs : List JVal)
  | obj (fields : List (String × JVal))

/-- Python truthiness of a JSON value (`if value:`). -/
def JVal.truthy : JVal → Bool
  | .null => false
  | .bool b => b
  | .num q => q ≠ 0
  | .str s => s ≠ ""
  | .arr xs => !xs.isEmpty
  | .obj fs => !fs.isEmpty

/-- A Python `dict` with string keys, as an ordered association list
(keys unique, insertion order preserved — Python 3.7+ semantics). -/
abbrev PyDict := List (String × JVal)

/-- `d[k] = v` on a Python dict (keys are unique): replace in place if the
key exists, append otherwise. -/
def dictSet : PyDict → String → JVal → PyDict
  | [], k, v => [(k, v)]
  | kv :: rest, k, v => if kv.1 = k then (k, v) :: rest else kv :: dictSet rest k v

/-- `d.update(u)` on Python dicts. -/
def dictUpdate (d u : PyDict) : PyDict :=
  u.foldl (fun acc kv => dictSet acc kv.1 kv.2) d

/-- `d.get(k)` on a Python dict (`none` = key absent; keys are unique, so
first match suffices). -/
def dictGet : PyDict → String → Option JVal
  | [], _ => none
  | kv :: rest, k => if kv.1 = k then some kv.2 else dictGet rest k

/-- Python `sep in s` for a one-character separator. -/
def strContainsChar (s : String) (c : Char) : Bool :=
  s.data.contains c

/-- Python `s.startswith(p)` (character-level, kernel-reducible). -/
def pyStartsWith (s p : String) : Bool :=
  p.data.isPrefixOf s.data

/-- Python `s[n:]` (character-level, kernel-reducible). -/
def strDrop (s : String) (n : Nat) : String :=
  String.mk (s.data.drop n)

/-- Strict lexicographic order on character lists. -/
def charListLt : List Char → List Char → Bool
  | [], [] => false
  | [], _ :: _ => true
  | _ :: _, [] => false
  | a :: as, b :: bs => if a < b then true else if b < a then false else charListLt as bs

/-- Strict lexicographic order on strings.  The database compares the
timestamp columns against the request's RFC-3339 strings; on the fixed-width
RFC-3339 rendering, lexicographic and chronological order agree. -/
def strLtB (a b : String) : Bool := charListLt a.data b.data

/-- Non-strict lexicographic order on strings. -/
def strLeB (a b : String) : Bool := !(strLtB b a)

/-- Helper for `splitChar`: accumulates the current chunk (reversed). -/
def splitCharAux (sep : Char) : List Char → List Char → List String
  | [], acc => [String.mk acc.reverse]
  | c :: rest, acc =>
      if c = sep then String.mk acc.reverse :: splitCharAux sep rest []
      else splitCharAux sep rest (c :: acc)

/-- Python `s.split(sep)` for a one-character separator: never returns an
empty list, keeps empty chunks (`"".split(",") == [""]`). -/
def splitChar (sep : Char) (s : String) : List String :=
  splitCharAux sep s.data []

/-- Exceptions / HTTP rejections that the controller code can raise. -/
inductive PyError where
  | abort (code : Nat) (msg : String)
  | keyError
  | indexError
  | typeError
  | valueError
deriving DecidableEq

/-! ## Catalog data model (the tables the controller queries) -/

/-- A row of `bdc.collections` (the fields the controller reads). -/
structure Collection where
  id : Nat
  identifier : String
  title : String
  is_public : Bool
  is_available : Bool
  category : String
  collection_type : String
deriving DecidableEq

/-- A row of `bdc.items` (the fields the controller reads).  Timestamps are
modelled as their RFC-3339 renderings; geometries (`footprint` / `bbox`) as
opaque strings. -/
structure Item where
  id : Nat
  name : String
  collection_id : Nat
  start_date : String
  end_date : String
  is_available : Bool
  metadata_ : Option PyDict
  assets : Option (List (String × PyDict))
  cloud_cover : Option ℚ
  footprint : Option String
  bbox : Option String
  tile_id : Option Nat
  created : String
  updated : String

/-- A row of `bdc.tiles`. -/
structure Tile where
  id : Nat
  name : String
deriving DecidableEq

/-- A row of `bdc.bands` (the fields `get_collection_eo` reads). -/
structure Band where
  collection_id : Nat
  name : String
  common_name : Option String
  description : Option String
  min_value : Option ℚ
  max_value : Option ℚ
  nodata : Option ℚ
  scale_mult : Option ℚ
  scale_add : Option ℚ
  data_type : Option String
  properties : PyDict
  eo_resolutions : Option (List ℚ)

/-- A row of `bdc.items_processors` (the fields `get_item_processors` reads). -/
structure ProcRec where
  facility : String
  version : String
  level : Int
  name : String

/-- The in-memory database the queries run against. -/
structure Db where
  collections : List Collection
  items : List Item
  tiles : List Tile

/-! ## The SQLAlchemy filter-expression AST

Each constructor is one kind of expression the controller puts in its
`where` list.  Spatial intersection, SQL `LIKE` and the property-query
comparisons are database functionality external to the repository, so their
truth value is supplied by an `ExtSem` oracle rather than modelled. -/

/-- Value occurring in a STAC property query (`query` parameter). -/
inductive Cond where
  /-- Python literal `False` appended by `_add_roles_constraint`. -/
  | falseC
  | orB (a b : Cond)
  | andB (a b : Cond)
  /-- `Collection.id == Item.collection_id` (join condition). -/
  | collEqItemCollection
  /-- `Collection.is_available.is_(True)` -/
  | collectionAvailable
  /-- `Item.is_available.is_(True)` -/
  | itemAvailable
  /-- `Collection.is_public.is_(True)` -/
  | isPublic
  /-- `Collection.identifier.in_(roles)` -/
  | identifierIn (names : List String)
  /-- `Item.name.in_(ids)` -/
  | itemNameIn (names : List String)
  /-- `Collection.id.in_(resolved ids)` -/
  | collectionIdIn (cids : List Nat)
  /-- `Item.name.like(item_id)` -/
  | itemNameLike (pattern : String)
  /-- property-query comparison on `Tile.name` (`bdc:tile` / `bdc:tiles`) -/
  | tileNameOp (method : String) (v : JVal)
  /-- property-query comparison on `Item.cloud_cover` (`eo:cloud_cover`) -/
  | cloudCoverOp (method : String) (v : JVal)
  /-- property-query comparison on `Item.metadata_[key].astext` -/
  | metadataTextOp (key : String) (method : String) (v : JVal)
  /-- `ST_Intersects(ST_GeomFromGeoJSON(str(intersects)), geom_field)` -/
  | stIntersectsGeoJSON (geojson : String) (useFootprint : Bool)
  /-- `ST_Intersects(ST_MakeEnvelope(xmin, ymin, xmax, ymax, 4326), geom_field)` -/
  | stIntersectsEnvelope (xmin ymin xmax ymax : ℚ) (useFootprint : Bool)
  | startLe (t : String)
  | startGe (t : String)
  | startLt (t : String)
  | endLe (t : String)
  | endGe (t : String)
  | endGt (t : String)

/-- SQLAlchemy variadic `or_(...)` (right-nested; `or_` of a single clause is
that clause). -/
def or_ : List Cond → Cond
  | [] => .falseC
  | [c] => c
  | c :: rest => .orB c (or_ rest)

/-- SQLAlchemy variadic `and_(...)`. -/
def and_ : List Cond → Cond
  | [] => .falseC
  | [c] => c
  | c :: rest => .andB c (and_ rest)

/-- `_add_roles_constraint(roles)`: translated line by line from the source.

```python
where = []
if "*" not in roles:
    where.append(Collection.identifier.in_(roles) if len(roles) > 0 else False)
return or_(Collection.is_public.is_(True), *where)
```
-/
def _add_roles_constraint (roles : List String) : Cond :=
  let where_ : List Cond :=
    if ¬ roles.contains "*" then
      [if roles.length > 0 then .identifierIn roles else .falseC]
    else []
  or_ (.isPublic :: where_)

/-- Oracle semantics for the database functionality that is external to the
repository (PostGIS spatial predicates, SQL `LIKE`, and the dynamically
dispatched property-query comparisons).  The geometry argument is the value
of the configured geometry field of the row (footprint or bbox). -/
structure ExtSem where
  likeMatch : String → String → Bool
  stGeoJSON : String → Option String → Bool
  stEnvelope : ℚ → ℚ → ℚ → ℚ → Option String → Bool
  tileOp : String → JVal → Option String → Bool
  cloudOp : String → JVal → Option ℚ → Bool
  metaOp : String → String → JVal → Option PyDict → Bool

/-- A row of the item search: an item joined with its collection and
(outer-joined) tile. -/
structure Row where
  collection : Collection
  item : Item
  tile : Option Tile

/-- Evaluate one filter condition on a row (the database's `WHERE` semantics). -/
def evalCond (sem : ExtSem) (row : Row) : Cond → Bool
  | .falseC => false
  | .orB a b => evalCond sem row a || evalCond sem row b
  | .andB a b => evalCond sem row a && evalCond sem row b
  | .collEqItemCollection => row.collection.id = row.item.collection_id
  | .collectionAvailable => row.collection.is_available
  | .itemAvailable => row.item.is_available
  | .isPublic => row.collection.is_public
  | .identifierIn names => names.contains row.collection.identifier
  | .itemNameIn names => names.contains row.item.name
  | .collectionIdIn cids => cids.contains row.collection.id
  | .itemNameLike pat => sem.likeMatch pat row.item.name
  | .tileNameOp m v => sem.tileOp m v (row.tile.map Tile.name)
  | .cloudCoverOp m v => sem.cloudOp m v row.item.cloud_cover
  | .metadataTextOp k m v => sem.metaOp k m v row.item.metadata_
  | .stIntersectsGeoJSON g uf =>
      sem.stGeoJSON g (if uf then row.item.footprint else row.item.bbox)
  | .stIntersectsEnvelope x0 y0 x1 y1 uf =>
      sem.stEnvelope x0 y0 x1 y1 (if uf then row.item.footprint else row.item.bbox)
  | .startLe t => strLeB row.item.start_date t
  | .startGe t => strLeB t row.item.start_date
  | .startLt t => strLtB row.item.start_date t
  | .endLe t => strLeB row.item.end_date t
  | .endGe t => strLeB t row.item.end_date
  | .endGt t => strLtB t row.item.end_date

/-! ## `get_collection_items`: parameter handling and `where`-list construction -/

/-- A request parameter that may arrive either as a comma-separated string or
as a list (the controller accepts both for `ids` / `collections`). -/
inductive StrOrList where
  | s (v : String)
  | l (v : List String)

/-- `x.split(",") if isinstance(x, str) else x`. -/
def StrOrList.toList : StrOrList → List String
  | .s v => splitChar ',' v
  | .l v => v

/-- Python truthiness of the parameter value. -/
def StrOrList.truthy : StrOrList → Bool
  | .s v => v ≠ ""
  | .l v => !v.isEmpty

/-- Python truthiness of an optional string parameter (`if collection_id:`). -/
def optStrTruthy : Option String → Bool
  | none => false
  | some s => s ≠ ""

/-- Python truthiness of an optional string-or-list parameter. -/
def optSolTruthy : Option StrOrList → Bool
  | none => false
  | some sol => sol.truthy

/-- The `mapping` dict of `create_query_filter`: operator name to the
SQLAlchemy comparison method it dispatches to (`mapping[op]`; `none` models
the `KeyError` an unknown operator raises). -/
def opMapping : String → Option String
  | "eq" => some "__eq__"
  | "neq" => some "__ne__"
  | "lt" => some "__lt__"
  | "lte" => some "__le__"
  | "gt" => some "__gt__"
  | "gte" => some "__ge__"
  | "startsWith" => some "startswith"
  | "endsWith" => some "endswith"
  | "contains" => some "contains"
  | "in" => some "in_"
  | _ => none

/-- Inner loop of `create_query_filter` over the `{op: value}` dict of one
property.  `bdc_properties` maps `bdc:tile` / `bdc:tiles` to `Tile.name` and
`eo:cloud_cover` to `Item.cloud_cover`; every other property name targets
`Item.metadata_[column].astext`. -/
def queryFilterOne (column : String) : List (String × JVal) → Except PyError (List Cond)
  | [] => .ok []
  | (op, value) :: rest =>
    match opMapping op with
    | none => .error .keyError
    | some method =>
      let c : Cond :=
        if column = "bdc:tile" ∨ column = "bdc:tiles" then .tileNameOp method value
        else if column = "eo:cloud_cover" then .cloudCoverOp method value
        else .metadataTextOp column method value
      (queryFilterOne column rest).map (fun cs => c :: cs)

/-- `create_query_filter(query)`: one condition per `(property, op)` pair, in
dict iteration order; an unknown operator raises `KeyError`. -/
def create_query_filter : List (String × List (String × JVal)) → Except PyError (List Cond)
  | [] => .ok []
  | (column, fs) :: rest => do
    let cs ← queryFilterOne column fs
    let more ← create_query_filter rest
    .ok (cs ++ more)

/-- `matches_open = ("..", "")`. -/
def matches_open : List String := ["..", ""]

/-- The `datetime` branch of `get_collection_items`: turn the datetime
parameter into the `date_filter` list.  A range with more or fewer than two
`/`-separated parts makes the Python tuple unpacking raise `ValueError`. -/
def build_date_filter (datetime : String) : Except PyError (List Cond) :=
  if strContainsChar datetime '/' then
    match splitChar '/' datetime with
    | [time_start, time_end] =>
      if matches_open.contains time_start then  -- open start
        .ok [or_ [.startLe time_end, .endLe time_end]]
      else if matches_open.contains time_end then  -- open end
        .ok [or_ [.startGe time_start, .endGe time_start]]
      else  -- closed range
        .ok [or_ [and_ [.startGe time_start, .startLe time_end],
                  and_ [.endGe time_start, .endLe time_end],
                  and_ [.startLt time_start, .endGt time_end]]]
    | _ => .error .valueError
  else
    .ok [and_ [.startLe datetime, .endGe datetime]]

/-- The truth value the temporal `date_filter` gives a row: the conjunction
of the produced condition list under the database's `WHERE` semantics. -/
def dateMatch (datetime : String) (sem : ExtSem) (row : Row) : Except PyError Bool :=
  (build_date_filter datetime).map (fun cs => cs.all (evalCond sem row))

/-- `l[i]` with Python `IndexError` semantics. -/
def pyIndex {α : Type} (l : List α) (i : Nat) : Except PyError α :=
  match l.get? i with
  | some v => .ok v
  | none => .error .indexError

/-- The message of `abort(400, "Invalid parameter. Use collection_id or collections.")`. -/
def invalidParameterCombinationMsg : String :=
  "Invalid parameter. Use collection_id or collections."

/-- The message of `abort(400, f"{bbox} is not a valid bbox.")` (the
interpolated repr of the bbox is elided). -/
def invalidBBoxMsg : String := "is not a valid bbox."

/-- The `where`-list construction of `get_collection_items`, translated
statement by statement from the source.  `db` stands for the database session
used by the inline `collections` identifier-resolution query; the numeric
parsing of a string-typed `bbox` parameter happens upstream of the degenerate
check and is elided (`bbox` arrives as the parsed list of numbers). -/
def get_collection_items_where (db : Db) (useFootprint : Bool)
    (collection_id : Option String) (roles : Option (List String))
    (item_id : Option String) (bbox : Option (List ℚ)) (datetime : Option String)
    (ids : Option StrOrList) (collections : Option StrOrList)
    (intersects : Option String)
    (query : Option (List (String × List (String × JVal)))) :
    Except PyError (List Cond) :=
  let roles := roles.getD []
  let base : List Cond :=
    [.collEqItemCollection, .collectionAvailable, .itemAvailable,
     _add_roles_constraint roles]
  match ids with
  | some idsv => .ok (base ++ [.itemNameIn idsv.toList])
  | none =>
    if optStrTruthy collection_id && optSolTruthy collections then
      .error (.abort 400 invalidParameterCombinationMsg)
    else
      -- `if collection_id: collections = [collection_id]`
      let collections := if optStrTruthy collection_id
        then some (StrOrList.l [collection_id.getD ""]) else collections
      -- `if collections: ... where += [Collection.id.in_(resolved)]`
      let w1 : List Cond :=
        match collections with
        | some sol =>
          if sol.truthy then
            base ++ [.collectionIdIn ((db.collections.filter
              (fun c => sol.toList.contains c.identifier)).map Collection.id)]
          else base
        | none => base
      -- `if item_id is not None: where += [Item.name.like(item_id)]`
      let w2 : List Cond :=
        match item_id with
        | some pat => w1 ++ [.itemNameLike pat]
        | none => w1
      do
        -- `if query: where += create_query_filter(query)`
        let w3 ← match query with
          | some q =>
            if !q.isEmpty then (create_query_filter q).map (fun fs => w2 ++ fs)
            else pure w2
          | none => pure w2
        -- spatial filter: `intersects` wins over `bbox`
        let w4 ← match intersects with
          | some g => pure (w3 ++ [.stIntersectsGeoJSON g useFootprint])
          | none =>
            match bbox with
            | some b => do
              let x0 ← pyIndex b 0
              let x2 ← pyIndex b 2
              if x0 = x2 then throw (.abort 400 invalidBBoxMsg)
              else do
                let y1 ← pyIndex b 1
                let y3 ← pyIndex b 3
                if y1 = y3 then throw (.abort 400 invalidBBoxMsg)
                else pure (w3 ++ [.stIntersectsEnvelope x0 y1 x2 y3 useFootprint])
            | none => pure w3
        -- temporal filter
        match datetime with
        | some dtp => (build_date_filter dtp).map (fun df => w4 ++ df)
        | none => pure w4

/-- `Item.tile_id == Tile.id` outer join. -/
def joinTile (db : Db) (i : Item) : Option Tile :=
  match i.tile_id with
  | none => none
  | some tid => db.tiles.find? (fun t => t.id = tid)

/-- The candidate rows of the item search (cartesian product of the joined
tables; the join conditions themselves are part of the `where` list). -/
def rowsOf (db : Db) : List Row :=
  db.collections.flatMap (fun c => db.items.map (fun i => ⟨c, i, joinTile db i⟩))

/-- `query.paginate(page=..., per_page=..., max_per_page=...)`: the requested
page size is clamped to the configured maximum and the page is sliced out
(a page beyond the end is empty, not an error). -/
def paginate (page limit maxLimit : Nat) (rows : List Row) : List Row :=
  let per := min limit maxLimit
  (rows.drop ((page - 1) * per)).take per

/-- `get_collection_items(...)` end to end: build the `where` list, run it
over the database rows, paginate.  The `ORDER BY start_date DESC, id` sort
only permutes the full result and is elided. -/
def get_collection_items (db : Db) (sem : ExtSem) (useFootprint : Bool)
    (collection_id : Option String) (roles : Option (List String))
    (item_id : Option String) (bbox : Option (List ℚ)) (datetime : Option String)
    (ids : Option StrOrList) (collections : Option StrOrList)
    (intersects : Option String)
    (query : Option (List (String × List (String × JVal))))
    (page limit maxLimit : Nat) : Except PyError (List Row) := do
  let w ← get_collection_items_where db useFootprint collection_id roles item_id
    bbox datetime ids collections intersects query
  pure (paginate page limit maxLimit
    ((rowsOf db).filter (fun r => w.all (evalCond sem r))))

/-! ## `get_collection_eo`: electro-optical band enrichment -/

/-- `float(x) if x is not None else None` on a numeric column. -/
def optNumJ : Option ℚ → JVal
  | none => .null
  | some q => .num q

/-- A nullable text column as a JSON value. -/
def optStrJ : Option String → JVal
  | none => .null
  | some s => .str s

/-- The `band_meta` dict built for one band: the fixed fields in literal
order, then `band_meta.update(band.properties)`. -/
def bandMetaOf (band : Band) : PyDict :=
  dictUpdate
    [("name", .str band.name), ("common_name", optStrJ band.common_name),
     ("description", optStrJ band.description), ("min", optNumJ band.min_value),
     ("max", optNumJ band.max_value), ("nodata", optNumJ band.nodata),
     ("scale", optNumJ band.scale_mult), ("scale_add", optNumJ band.scale_add),
     ("data_type", optStrJ band.data_type)]
    band.properties

/-- The `{"eo:gsd": ..., "eo:bands": ...}` result of `get_collection_eo`. -/
structure EOResult where
  eo_gsd : ℚ
  eo_bands : List PyDict

/-- The `for band in bands` loop of `get_collection_eo`: `None` resolutions
are skipped with a warning; `resolutions[0]` on an empty (non-null) list
raises `IndexError`; otherwise the band meta is appended and the running
`eo_gsd` is raised to `resolutions[0]` when larger. -/
def eoLoop : List Band → List PyDict → ℚ → Except PyError EOResult
  | [], eo_bands, eo_gsd => .ok ⟨eo_gsd, eo_bands⟩
  | band :: rest, eo_bands, eo_gsd =>
    match band.eo_resolutions with
    | none => eoLoop rest eo_bands eo_gsd
    | some [] => .error .indexError
    | some (r0 :: _) =>
      eoLoop rest (eo_bands ++ [bandMetaOf band]) (if r0 > eo_gsd then r0 else eo_gsd)

/-- `get_collection_eo(collection_id)` over the given `bdc.bands` table
(`Band.query().filter(Band.collection_id == collection_id)`), starting from
`eo_bands = []`, `eo_gsd = 0.0`. -/
def get_collection_eo (bands : List Band) (collection_id : Nat) : Except PyError EOResult :=
  eoLoop (bands.filter (fun b => b.collection_id = collection_id)) [] 0

/-! ## Item enrichment pipeline (`make_geojson` and helpers) -/

/-- Modelled from the spec: `get_stac_extensions` lives in the repository's
`config` module, which is not present under `src/` in the version shipped
there; the spec describes it as "a registry mapping extension-category names
to extension URIs/ids".  The registry covers exactly the names the controller
requests; unregistered names contribute nothing. -/
def extensionRegistry : List (String × String) :=
  [("version", "version-ext"), ("processing", "processing-ext"),
   ("item-assets", "item-assets-ext"), ("datacube", "datacube-ext"),
   ("eo", "eo-ext"), ("sar", "sar-ext"), ("storage", "storage-ext")]

/-- Modelled from the spec: returns the registered extension id for each
requested name in order. -/
def get_stac_extensions (names : List String) : List String :=
  names.filterMap (fun n =>
    (extensionRegistry.find? (fun kv => kv.1 = n)).map (fun kv => kv.2))

/-- Modelled from Python `urllib.parse.urljoin`, restricted to what the
controller relies on: joining against the empty base leaves the url unchanged
(`urljoin("", u) = u`), an absolute url wins over the base, and otherwise the
base is prefixed (the full RFC 3986 merge of the last path segment is
simplified away; no claim exercises that branch). -/
def urljoin (base url : String) : String :=
  if base = "" then url
  else if strContainsChar url ':' then url
  else base ++ url

/-- `_resolve_item_file_root(ctx)`: asset hrefs are joined against the
resolved file root (the `X-Script-Name` header or the configured default,
passed here as `fileRoot`) unless some metadata key of the item starts with
`storage:`, in which case the base is the empty string because such assets
already carry an absolute URI. -/
def _resolve_item_file_root (fileRoot : String) (item_meta : Option PyDict) : String :=
  match item_meta with
  | none => fileRoot
  | some m => if m.any (fun kv => pyStartsWith kv.1 "storage:") then "" else fileRoot

/-- The aggregation loop of `get_item_processors`: the record with the
strictly highest `level` becomes the root (first seen wins ties), and the
`facility → version` dict is accumulated in iteration order. -/
def procLoop : List ProcRec → Option ProcRec → PyDict → Option ProcRec × PyDict
  | [], root, obj => (root, obj)
  | proc :: rest, root, obj =>
    let root := match root with
      | none => some proc
      | some r => if proc.level > r.level then some proc else some r
    procLoop rest root (dictSet obj proc.facility (.str proc.version))

/-- `get_item_processors(item_id)` over the item's processor records. -/
def get_item_processors (processors : List ProcRec) : PyDict :=
  let rootObj := procLoop processors none []
  if rootObj.2.isEmpty then []
  else match rootObj.1 with
    | some r =>
      [("processing:lineage", .str r.name), ("processing:facility", .str r.facility),
       ("processing:level", .num (r.level : ℚ)), ("processing:software", .obj rootObj.2)]
    | none => []

/-- A row of the `get_collection_items` SELECT, as consumed by
`make_geojson` (column labels of the source's `columns` list). -/
structure ItemRow where
  collection : String
  collection_type : String
  category : String
  item_meta : Option PyDict
  item : String
  id : Nat
  collection_id : Nat
  start : String
  end_ : String
  created : String
  updated : String
  cloud_cover : Option ℚ
  footprint : Option String
  bbox : Option String
  tile : Option String
  assets : Option (List (String × PyDict))

/-- The GeoJSON Feature document `make_geojson` assembles.  `assets = none`
means the feature carries no `assets` key; `geometry` keeps the opaque
geometry value (the shapely mapping conversion is elided); links are
`(href, rel)` pairs. -/
structure Feature where
  id : String
  collection : String
  stac_extensions : List String
  geometry : String
  links : List (String × String)
  bbox : List ℚ
  assets : Option (List (String × PyDict))
  properties : PyDict

/-- Python `band["name"] == key` (false rather than an exception when the
band dict carries no string name; `bandMetaOf` always provides one). -/
def bandNameIs (band : PyDict) (key : String) : Bool :=
  match dictGet band "name" with
  | some (.str s) => s = key
  | _ => false

/-- The per-asset rewriting loop body: read `value["href"]`, join it against
the resolved base (after appending the preserved query string), and for `eo`
collections attach the matching band meta. -/
def processOneAsset (base_url assets_kwargs : String) (eoBands : Option (List PyDict))
    (key : String) (value : PyDict) : Except PyError PyDict := do
  let href ← match dictGet value "href" with
    | some (.str h) => pure h
    | some _ => throw .typeError
    | none => throw .keyError
  let value := dictSet value "href" (.str (urljoin base_url (href ++ assets_kwargs)))
  match eoBands with
  | some bs => pure (bs.foldl (fun v band =>
      if bandNameIs band key then dictSet v "eo:bands" (.arr [.obj band]) else v) value)
  | none => pure value

/-- `mapM` over `Except`, written out for easy induction. -/
def mapMList {α β : Type} (f : α → Except PyError β) : List α → Except PyError (List β)
  | [] => .ok []
  | x :: xs => do
    let y ← f x
    let ys ← mapMList f xs
    .ok (y :: ys)

/-- `geom = i.footprint or i.bbox` followed by the shapely conversion
(elided); both absent makes shapely raise (modelled as `TypeError`). -/
def geomStep (i : ItemRow) : Except PyError String :=
  match i.footprint.orElse (fun _ => i.bbox) with
  | some g => pure g
  | none => throw .typeError

/-- The `properties` dict of the feature up to the `bdc:tiles` attachment:
the fixed datetime fields, updated with the item's free-form metadata, then
with the processing-lineage fields, then the tile list. -/
def itemProps (procsOf : Nat → List ProcRec) (i : ItemRow) : PyDict :=
  let processors := get_item_processors (procsOf i.id)
  let props : PyDict :=
    [("datetime", .str i.start), ("start_datetime", .str i.start),
     ("end_datetime", .str i.end_), ("created", .str i.created),
     ("updated", .str i.updated)]
  let props := dictUpdate props (i.item_meta.getD [])
  let props := dictUpdate props processors
  match i.tile with
  | some t => dictSet props "bdc:tiles" (.arr [.str t])
  | none => props

/-- The `eo` branch: attach `eo:cloud_cover` and fetch the band metadata
(`bands = get_collection_eo(...)`); for other categories `bands = {}`
(represented as `none`). -/
def propsStep (bandsTable : List Band) (i : ItemRow) (props : PyDict) :
    Except PyError (PyDict × Option (List PyDict)) :=
  if i.category = "eo" then do
    let props := dictSet props "eo:cloud_cover" (optNumJ i.cloud_cover)
    let eo ← get_collection_eo bandsTable i.collection_id
    pure (props, some eo.eo_bands)
  else pure (props, none)

/-- The `if i.assets:` block: rewrite every asset href (and attach band
metadata for `eo` collections); an empty or absent asset dict leaves the
feature without an `assets` key (`none`). -/
def assetsStep (base_url assets_kwargs : String) (eoBands : Option (List PyDict)) :
    Option (List (String × PyDict)) → Except PyError (Option (List (String × PyDict)))
  | some l =>
    if !l.isEmpty then
      (mapMList (fun kv =>
        (processOneAsset base_url assets_kwargs eoBands kv.1 kv.2).map
          (fun v => (kv.1, v))) l).map Option.some
    else pure none
  | none => pure none

/-- The feature's `stac_extensions`: from the collection category, extended
with the processing extension when the item has processor records, and with
the storage extension when the finished properties carry a truthy
`storage:platform` value (`if feature["properties"].get("storage:platform"):`). -/
def extsOf (procsOf : Nat → List ProcRec) (finalProps : PyDict) (i : ItemRow) : List String :=
  let exts := get_stac_extensions [i.category]
  let exts := if !(get_item_processors (procsOf i.id)).isEmpty then
      exts ++ get_stac_extensions ["processing"]
    else exts
  if (dictGet finalProps "storage:platform").elim false JVal.truthy then
    exts ++ get_stac_extensions ["storage"]
  else exts

/-- One iteration of the `for i in items` loop of `make_geojson`.  External
inputs are passed explicitly: `stacUrl` (resolved STAC base URL), `fileRoot`
(resolved file root), `procsOf` (the `ItemsProcessors.get_processors` lookup),
`bandsTable` (the `bdc.bands` table behind `get_collection_eo`) and
`boundsOf` (the shapely `bounds` computation, left abstract). -/
def makeFeature (stacUrl fileRoot : String) (procsOf : Nat → List ProcRec)
    (bandsTable : List Band) (boundsOf : String → List ℚ)
    (assets_kwargs : String) (i : ItemRow) : Except PyError Feature := do
  let geom ← geomStep i
  let propsBands ← propsStep bandsTable i (itemProps procsOf i)
  let assetsOut ← assetsStep (_resolve_item_file_root fileRoot i.item_meta)
    assets_kwargs propsBands.2 i.assets
  pure {
    id := i.item, collection := i.collection,
    stac_extensions := extsOf procsOf propsBands.1 i,
    geometry := geom,
    links := [(stacUrl ++ "/collections/" ++ i.collection ++ "/items/" ++ i.item
                ++ assets_kwargs, "self"),
              (stacUrl ++ "/collections/" ++ i.collection ++ assets_kwargs, "parent"),
              (stacUrl ++ "/collections/" ++ i.collection ++ assets_kwargs, "collection"),
              (stacUrl ++ "/", "root")],
    bbox := (match i.bbox with | some g => boundsOf g | none => []),
    assets := assetsOut, properties := propsBands.1 }

/-- `make_geojson(items, assets_kwargs)`: one feature per row.  The trailing
`feature.pop(key)` loop for an `exclude` list is elided (every claim uses an
empty exclusion list). -/
def make_geojson (stacUrl fileRoot : String) (procsOf : Nat → List ProcRec)
    (bandsTable : List Band) (boundsOf : String → List ℚ)
    (items : List ItemRow) (assets_kwargs : String) : Except PyError (List Feature) :=
  mapMList (makeFeature stacUrl fileRoot procsOf bandsTable boundsOf assets_kwargs) items

/-! ## Field projection (`parse_fields_parameter`) -/

/-- An entry of the `exclude` list: a plain name, or a `(name, sub-path)`
tuple for dotted exclusions. -/
inductive FieldEx where
  | plain (s : String)
  | nested (s : String) (sub : List String)
deriving DecidableEq

/-- `parse_fields_parameter(fields)`, translated line by line: split on
commas, a leading `-` marks exclusion, a dotted exclusion contributes the
`(name, sub-path)` tuple, everything else is included. -/
def parse_fields_parameter : Option String → List String × List FieldEx
  | none => ([], [])
  | some fields =>
    (splitChar ',' fields).foldl
      (fun acc field =>
        if pyStartsWith field "-" then
          let splitter := splitChar '.' field
          let left := strDrop (splitter.headD "") 1
          if splitter.length > 1 then (acc.1, acc.2 ++ [.nested left splitter.tail])
          else (acc.1, acc.2 ++ [.plain left])
        else (acc.1 ++ [field], acc.2))
      ([], [])

/-! ## Concrete demonstration data (witnesses and counterexamples) -/

/-- An oracle refuting every external predicate; the claims below never
depend on its answers. -/
def trivSem : ExtSem :=
  ⟨fun _ _ => false, fun _ _ => false, fun _ _ _ _ _ => false,
   fun _ _ _ => false, fun _ _ _ => false, fun _ _ _ _ => false⟩

/-- An empty catalog database. -/
def emptyDb : Db := ⟨[], [], []⟩

/-- An available, non-public collection. -/
def demoPrivateCollection : Collection :=
  ⟨7, "CB4-16D-2", "CBERS-4 data cube", false, true, "eo", "cube"⟩

/-- An available item of `demoPrivateCollection`. -/
def demoItem : Item :=
  ⟨1, "item-A", 7, "2020-01-01T00:00:00.000000Z", "2020-01-16T00:00:00.000000Z",
   true, none, none, none, some "GEOM", some "BBOX", none,
   "2020-02-01T00:00:00.000000Z", "2020-02-01T00:00:00.000000Z"⟩

/-- `demoItem` joined with its (non-public) collection. -/
def demoRow : Row := ⟨demoPrivateCollection, demoItem, none⟩

/-- A band of collection 1 with the given resolution list and no other data. -/
def mkDemoBand (name : String) (res : Option (List ℚ)) : Band :=
  ⟨1, name, none, none, none, none, none, none, none, none, [], res⟩

def demoBand30 : Band := mkDemoBand "B1" (some [30])

def demoBand10 : Band := mkDemoBand "B2" (some [10])

def demoBandNeg : Band := mkDemoBand "B3" (some [-1])

def demoBandEmptyRes : Band := mkDemoBand "B4" (some [])

def demoBandNoRes : Band := mkDemoBand "B5" none

/-- Item metadata carrying a truthy `storage:platform` key. -/
def demoStorageMeta : PyDict := [("storage:platform", JVal.str "AWS")]

/-- A query-result row whose metadata has a truthy `storage:platform` key and
whose single asset stores an absolute object-storage href. -/
def demoStorageRow : ItemRow :=
  ⟨"S2-16D-2", "cube", "other", some demoStorageMeta, "it-1", 11, 3,
   "2020-01-01T00:00:00.000000Z", "2020-01-16T00:00:00.000000Z",
   "2020-02-01T00:00:00.000000Z", "2020-02-01T00:00:00.000000Z", none,
   some "GEOM", none, none,
   some [("B1", [("href", JVal.str "s3://bucket/scene/B1.tif")])]⟩

/-- The same row with a present but falsy (empty-string) `storage:platform`. -/
def demoFalsyStorageRow : ItemRow :=
  ⟨"S2-16D-2", "cube", "other", some [("storage:platform", JVal.str "")], "it-1", 11, 3,
   "2020-01-01T00:00:00.000000Z", "2020-01-16T00:00:00.000000Z",
   "2020-02-01T00:00:00.000000Z", "2020-02-01T00:00:00.000000Z", none,
   some "GEOM", none, none,
   some [("B1", [("href", JVal.str "s3://bucket/scene/B1.tif")])]⟩

/-- A one-collection, one-item database. -/
def demoDb : Db := ⟨[demoPrivateCollection], [demoItem], []⟩

/-- The feature `make_geojson` produces for `demoStorageRow` (extracted from
the computation so that witnesses can name it). -/
def demoStorageFeature : Feature :=
  ((makeFeature "http://stac" "http://files" (fun _ => []) [] (fun _ => []) ""
      demoStorageRow).toOption).getD ⟨"", "", [], "", [], [], none, []⟩

/-! ## Helper lemmas -/

/-- Inversion of a successful `Except` bind. -/
theorem bindEqOk {α β : Type} {x : Except PyError α} {f : α → Except PyError β} {b : β}
    (h : x >>= f = .ok b) : ∃ a, x = .ok a ∧ f a = .ok b := by
  cases x with
  | error e => exact absurd h (by simp [Bind.bind, Except.bind])
  | ok a => exact ⟨a, rfl, by simpa [Bind.bind, Except.bind] using h⟩

/-- Skipping every band: all-null resolutions leave the accumulators as
they started. -/
theorem eoLoop_skip_all (l : List Band) : ∀ (acc : List PyDict) (g : ℚ),
    (∀ b ∈ l, b.eo_resolutions = none) → eoLoop l acc g = .ok ⟨g, acc⟩ := by
  induction l with
  | nil => intro acc g _; rfl
  | cons b rest ih =>
    intro acc g h
    have hb := h b (by simp)
    simp only [eoLoop, hb]
    exact ih acc g (fun b' hb' => h b' (by simp [hb']))

/-- The running `eo_gsd` accumulator never decreases. -/
theorem eoLoop_gsd_mono (l : List Band) : ∀ (acc : List PyDict) (g : ℚ) (r : EOResult),
    eoLoop l acc g = .ok r → g ≤ r.eo_gsd := by
  induction l with
  | nil =>
    intro acc g r h
    simp only [eoLoop, Except.ok.injEq] at h
    rw [← h]
  | cons b rest ih =>
    intro acc g r h
    cases hb : b.eo_resolutions with
    | none =>
      rw [eoLoop, hb] at h
      exact ih acc g r h
    | some rs =>
      cases rs with
      | nil => rw [eoLoop, hb] at h; exact absurd h (by simp)
      | cons r0 rtl =>
        rw [eoLoop, hb] at h
        refine le_trans ?_ (ih _ _ _ h)
        by_cases hgt : r0 > g
        · rw [if_pos hgt]; exact hgt.le
        · rw [if_neg hgt]

/-- The source's `if resolutions[0] > eo_gsd` update is a `max`. -/
theorem max_ite (g r0 : ℚ) : (if r0 > g then r0 else g) = max g r0 := by
  rcases le_or_lt r0 g with h | h
  · rw [if_neg (not_lt.mpr h), max_eq_left h]
  · rw [if_pos h, max_eq_right h.le]

/-- Full characterisation of the `get_collection_eo` loop when no band has
an empty (non-null) resolution list. -/
theorem eoLoop_spec (l : List Band) : ∀ (acc : List PyDict) (g : ℚ),
    (∀ b ∈ l, b.eo_resolutions ≠ some []) →
    eoLoop l acc g =
      .ok ⟨(l.filterMap (fun b => b.eo_resolutions.bind List.head?)).foldl max g,
           acc ++ l.filterMap (fun b => b.eo_resolutions.map (fun _ => bandMetaOf b))⟩ := by
  induction l with
  | nil => intro acc g _; simp [eoLoop]
  | cons b rest ih =>
    intro acc g h
    have hrest : ∀ b' ∈ rest, b'.eo_resolutions ≠ some [] :=
      fun b' hb' => h b' (by simp [hb'])
    cases hb : b.eo_resolutions with
    | none =>
      simp only [eoLoop, hb, List.filterMap_cons, Option.bind, Option.map]
      exact ih acc g hrest
    | some rs =>
      cases rs with
      | nil => exact absurd hb (h b (by simp))
      | cons r0 rtl =>
        simp only [eoLoop, hb, List.filterMap_cons, Option.bind, Option.map,
          List.head?, List.foldl, max_ite]
        rw [ih (acc ++ [bandMetaOf b]) (max g r0) hrest, List.append_assoc]
        rfl

/-! ## Claim theorems -/

/-- C1 (counterexample): with an explicit `ids` list supplied, passing both
`collection_id` and `collections` does not abort — the combination check sits
inside the `else` branch of the ids test, so the query is built from the ids
alone; the claim's "regardless of any other parameters (including an explicit
ids list)" is false. -/
theorem C1_counterexample :
    get_collection_items_where emptyDb true (some "CB4-16D-2") none none none none
      (some (.l ["item-A"])) (some (.l ["S2_L2A-1"])) none none =
      .ok [.collEqItemCollection, .collectionAvailable, .itemAvailable,
           _add_roles_constraint [], .itemNameIn ["item-A"]] := rfl

/-- C1 (amended): when no explicit `ids` list is supplied, supplying both a
(truthy) single collection id and a (truthy) collection-id list makes the
call fail with the 400 `InvalidParameterCombination` rejection, regardless of
the remaining parameters. -/
theorem C1_both_collection_params_rejected (db : Db) (uf : Bool) (cid : String)
    (colls : StrOrList) (roles : Option (List String)) (item_id : Option String)
    (bbox : Option (List ℚ)) (dtp : Option String) (geo : Option String)
    (q : Option (List (String × List (String × JVal))))
    (hcid : cid ≠ "") (hcolls : colls.truthy = true) :
    get_collection_items_where db uf (some cid) roles item_id bbox dtp none
      (some colls) geo q = .error (.abort 400 invalidParameterCombinationMsg) := by
  unfold get_collection_items_where
  simp [optStrTruthy, optSolTruthy, hcid, hcolls]

/-- C1 (witness): a concrete call rejected by the amended rule. -/
theorem C1_witness :
    ("CB4-16D-2" : String) ≠ "" ∧ (StrOrList.l ["S2_L2A-1"]).truthy = true ∧
    get_collection_items_where emptyDb true (some "CB4-16D-2") none none none none none
      (some (.l ["S2_L2A-1"])) none none =
      .error (.abort 400 invalidParameterCombinationMsg) :=
  ⟨by decide, by decide,
   C1_both_collection_params_rejected emptyDb true "CB4-16D-2" (.l ["S2_L2A-1"])
     none none none none none none (by decide) (by decide)⟩

/-- C2 (code behaviour at the failing input): with the wildcard role list
`["*"]`, the predicate `_add_roles_constraint` builds degenerates to
`is_public` alone — the branch that would append an identifier constraint is
skipped and nothing replaces it — so an available non-public collection is
invisible, although the function's own docstring (and the claim) promise that
`*` gives access to all collections. -/
theorem C2_wildcard_hides_private :
    evalCond trivSem demoRow (_add_roles_constraint ["*"]) = false ∧
    demoRow.collection.is_public = false ∧
    demoRow.collection.is_available = true ∧
    (["*"] : List String).contains "*" = true :=
  ⟨rfl, rfl, rfl, rfl⟩

/-- C4: with an explicit item ids list, the built `where` list is exactly the
join condition, the two availability constraints, the role-visibility
predicate and the id membership test — the collection, bbox, intersection,
datetime, item-name-pattern and property-query parameters are all ignored. -/
theorem C4_ids_override (db : Db) (uf : Bool) (cid : Option String)
    (roles : Option (List String)) (item_id : Option String) (bbox : Option (List ℚ))
    (dtp : Option String) (idsv : StrOrList) (colls : Option StrOrList)
    (geo : Option String) (q : Option (List (String × List (String × JVal)))) :
    get_collection_items_where db uf cid roles item_id bbox dtp (some idsv) colls geo q =
      .ok [.collEqItemCollection, .collectionAvailable, .itemAvailable,
           _add_roles_constraint (roles.getD []), .itemNameIn idsv.toList] := rfl

/-- C8 (counterexample): the empty string is not treated like an absent
parameter — Python splits `""` into `[""]`, so the include list is `[""]`,
not empty. -/
theorem C8_counterexample :
    parse_fields_parameter (some "") = ([""], []) ∧
    parse_fields_parameter (some "") ≠ ([], []) :=
  ⟨by decide, by decide⟩

/-- C8 (amended): `parse_fields_parameter("a,-b,-c.d")` yields include
`["a"]` and exclude `["b", ("c", ["d"])]`, and an absent parameter yields two
empty lists (an empty string instead yields a singleton empty include name). -/
theorem C8_fields_parsing :
    parse_fields_parameter (some "a,-b,-c.d") =
      (["a"], [.plain "b", .nested "c" ["d"]]) ∧
    parse_fields_parameter none = ([], []) :=
  ⟨by decide, rfl⟩

/-- C10: a collection with no bands (or whose bands all have null resolution
data) yields exactly `eo:gsd = 0.0` with an empty `eo:bands` list, and
whenever `get_collection_eo` succeeds the returned `eo:gsd` is at least
`0.0`, negative resolution entries notwithstanding. -/
theorem C10_gsd_floor (bands : List Band) (cid : Nat) :
    ((∀ b ∈ bands, b.collection_id = cid → b.eo_resolutions = none) →
      get_collection_eo bands cid = .ok ⟨0, []⟩) ∧
    (∀ r, get_collection_eo bands cid = .ok r → 0 ≤ r.eo_gsd) := by
  constructor
  · intro h
    apply eoLoop_skip_all
    intro b hb
    rw [List.mem_filter] at hb
    exact h b hb.1 (by simpa using hb.2)
  · intro r h
    exact eoLoop_gsd_mono _ _ _ _ h

/-- C10 (witness): one null-resolution band yields `(0.0, [])`, where the
floor holds. -/
theorem C10_witness :
    get_collection_eo [demoBandNoRes] 1 = .ok ⟨0, []⟩ ∧ (0 : ℚ) ≤ (0 : ℚ) :=
  ⟨(C10_gsd_floor [demoBandNoRes] 1).1 (by decide),
   (C10_gsd_floor [demoBandNoRes] 1).2 ⟨0, []⟩
     ((C10_gsd_floor [demoBandNoRes] 1).1 (by decide))⟩

/-- C7 (counterexample): a single band whose first resolution entry is
`-1.0` produces `eo:gsd = 0.0` — the accumulator's initial value — rather
than the maximum (`-1.0`) of the bands' first entries; and a band with an
empty non-null resolution list raises `IndexError` instead of being skipped
with a warning. -/
theorem C7_counterexample :
    get_collection_eo [demoBandNeg] 1 = .ok ⟨0, [bandMetaOf demoBandNeg]⟩ ∧
    (0 : ℚ) ≠ -1 ∧
    get_collection_eo [demoBandEmptyRes] 1 = .error .indexError :=
  ⟨rfl, by norm_num, rfl⟩

/-- C7 (amended): for a collection whose non-null resolution lists are all
non-empty, `eo:gsd` is the maximum of `0.0` and the bands' first resolution
entries, and `eo:bands` holds one entry per band with non-null resolution
data (null-resolution bands are skipped without error). -/
theorem C7_eo_gsd (bands : List Band) (cid : Nat)
    (h : ∀ b ∈ bands.filter (fun b => b.collection_id = cid), b.eo_resolutions ≠ some []) :
    get_collection_eo bands cid =
      .ok ⟨((bands.filter (fun b => b.collection_id = cid)).filterMap
              (fun b => b.eo_resolutions.bind List.head?)).foldl max 0,
           (bands.filter (fun b => b.collection_id = cid)).filterMap
              (fun b => b.eo_resolutions.map (fun _ => bandMetaOf b))⟩ := by
  unfold get_collection_eo
  exact eoLoop_spec _ [] 0 h

/-- C7 (witness): two bands with resolutions `[30.0]` and `[10.0]` yield
`eo:gsd = 30.0` and two `eo:bands` entries. -/
theorem C7_witness :
    get_collection_eo [demoBand30, demoBand10] 1 =
      .ok ⟨30, [bandMetaOf demoBand30, bandMetaOf demoBand10]⟩ :=
  (C7_eo_gsd [demoBand30, demoBand10] 1 (by decide)).trans
    (by norm_num [demoBand30, demoBand10, mkDemoBand, List.filterMap, List.filter,
      Option.bind, List.head?, max_def])

/-- C3: the temporal range resolver maps the datetime parameter to exactly
the claimed predicate over the item's `[start, end]` interval: a single
timestamp `t` matches iff `start ≤ t ≤ end`; an open-start range (`../T2` or
`/T2`) iff `start ≤ T2` or `end ≤ T2`; an open-end range (`T1/..` or `T1/`)
iff `start ≥ T1` or `end ≥ T1`; a closed range `T1/T2` iff `start ∈ [T1,T2]`
or `end ∈ [T1,T2]` or (`start < T1` and `end > T2`). -/
theorem C3_temporal_resolver (sem : ExtSem) (row : Row) (dtp t1 t2 : String) :
    (strContainsChar dtp '/' = false →
      dateMatch dtp sem row =
        .ok (strLeB row.item.start_date dtp && strLeB dtp row.item.end_date)) ∧
    (strContainsChar dtp '/' = true → splitChar '/' dtp = [t1, t2] →
      matches_open.contains t1 = true →
      dateMatch dtp sem row =
        .ok (strLeB row.item.start_date t2 || strLeB row.item.end_date t2)) ∧
    (strContainsChar dtp '/' = true → splitChar '/' dtp = [t1, t2] →
      matches_open.contains t1 = false → matches_open.contains t2 = true →
      dateMatch dtp sem row =
        .ok (strLeB t1 row.item.start_date || strLeB t1 row.item.end_date)) ∧
    (strContainsChar dtp '/' = true → splitChar '/' dtp = [t1, t2] →
      matches_open.contains t1 = false → matches_open.contains t2 = false →
      dateMatch dtp sem row =
        .ok ((strLeB t1 row.item.start_date && strLeB row.item.start_date t2) ||
             ((strLeB t1 row.item.end_date && strLeB row.item.end_date t2) ||
              (strLtB row.item.start_date t1 && strLtB t2 row.item.end_date)))) := by
  refine ⟨?_, ?_, ?_, ?_⟩
  · intro h
    simp [dateMatch, build_date_filter, h, and_, evalCond, Except.map]
  · intro h hs h1
    have h1' : t1 ∈ matches_open := by simpa using h1
    simp [dateMatch, build_date_filter, h, hs, h1', or_, evalCond, Except.map]
  · intro h hs h1 h2
    have h1' : t1 ∉ matches_open := by simpa using h1
    have h2' : t2 ∈ matches_open := by simpa using h2
    simp [dateMatch, build_date_filter, h, hs, h1', h2', or_, evalCond, Except.map]
  · intro h hs h1 h2
    have h1' : t1 ∉ matches_open := by simpa using h1
    have h2' : t2 ∉ matches_open := by simpa using h2
    simp [dateMatch, build_date_filter, h, hs, h1', h2', or_, and_, evalCond, Except.map,
      Bool.or_assoc, Bool.and_assoc]

/-- C3 (witness): the four range shapes at concrete inputs. -/
theorem C3_witness :
    dateMatch "2020-01-05T00:00:00" trivSem demoRow =
      .ok (strLeB demoRow.item.start_date "2020-01-05T00:00:00" &&
           strLeB "2020-01-05T00:00:00" demoRow.item.end_date) ∧
    dateMatch "../2020-01-05" trivSem demoRow =
      .ok (strLeB demoRow.item.start_date "2020-01-05" ||
           strLeB demoRow.item.end_date "2020-01-05") ∧
    dateMatch "2020-01-05/.." trivSem demoRow =
      .ok (strLeB "2020-01-05" demoRow.item.start_date ||
           strLeB "2020-01-05" demoRow.item.end_date) ∧
    dateMatch "2020-01-02/2020-01-05" trivSem demoRow =
      .ok ((strLeB "2020-01-02" demoRow.item.start_date &&
            strLeB demoRow.item.start_date "2020-01-05") ||
           ((strLeB "2020-01-02" demoRow.item.end_date &&
             strLeB demoRow.item.end_date "2020-01-05") ||
            (strLtB demoRow.item.start_date "2020-01-02" &&
             strLtB "2020-01-05" demoRow.item.end_date))) :=
  ⟨(C3_temporal_resolver trivSem demoRow "2020-01-05T00:00:00" "x" "y").1 (by decide),
   (C3_temporal_resolver trivSem demoRow "../2020-01-05" ".." "2020-01-05").2.1
     (by decide) (by decide) (by decide),
   (C3_temporal_resolver trivSem demoRow "2020-01-05/.." "2020-01-05" "..").2.2.1
     (by decide) (by decide) (by decide) (by decide),
   (C3_temporal_resolver trivSem demoRow "2020-01-02/2020-01-05" "2020-01-02"
     "2020-01-05").2.2.2 (by decide) (by decide) (by decide) (by decide)⟩

/-- C5: with no intersection geometry supplied, a degenerate bounding box
(west = east or south = north) is rejected with the 400 bbox error, and every
non-degenerate four-number box adds exactly the envelope-intersection
predicate to the query with no error raised. -/
theorem C5_bbox_validation (db : Db) (uf : Bool) (roles : Option (List String))
    (w s e n : ℚ) :
    (w = e ∨ s = n →
      get_collection_items_where db uf none roles none (some [w, s, e, n]) none none
        none none none = .error (.abort 400 invalidBBoxMsg)) ∧
    (w ≠ e → s ≠ n →
      get_collection_items_where db uf none roles none (some [w, s, e, n]) none none
        none none none =
        .ok [.collEqItemCollection, .collectionAvailable, .itemAvailable,
             _add_roles_constraint (roles.getD []), .stIntersectsEnvelope w s e n uf]) := by
  constructor
  · rintro (h | h)
    · simp [get_collection_items_where, pyIndex, optStrTruthy, optSolTruthy, h,
        Bind.bind, Except.bind, Pure.pure, Except.pure]
    · by_cases hwe : w = e
      · simp [get_collection_items_where, pyIndex, optStrTruthy, optSolTruthy, hwe,
          Bind.bind, Except.bind, Pure.pure, Except.pure]
      · simp [get_collection_items_where, pyIndex, optStrTruthy, optSolTruthy, hwe, h,
          Bind.bind, Except.bind, Pure.pure, Except.pure]
  · intro hwe hsn
    simp [get_collection_items_where, pyIndex, optStrTruthy, optSolTruthy, hwe, hsn,
      Bind.bind, Except.bind, Pure.pure, Except.pure]

/-- C5 (witness): a degenerate and a proper box at concrete numbers. -/
theorem C5_witness :
    get_collection_items_where emptyDb true none none none (some [1, 2, 1, 3]) none
      none none none none = .error (.abort 400 invalidBBoxMsg) ∧
    get_collection_items_where emptyDb true none none none (some [1, 2, 3, 4]) none
      none none none none =
      .ok [.collEqItemCollection, .collectionAvailable, .itemAvailable,
           _add_roles_constraint [], .stIntersectsEnvelope 1 2 3 4 true] :=
  ⟨(C5_bbox_validation emptyDb true none 1 2 1 3).1 (Or.inl rfl),
   (C5_bbox_validation emptyDb true none 1 2 3 4).2 (by norm_num) (by norm_num)⟩

/-- The `where` list when only a (non-empty) collections name list is
supplied: the base constraints plus the membership test over the ids the
identifier lookup resolved. -/
theorem where_collections_only (db : Db) (uf : Bool) (roles : Option (List String))
    (names : List String) (h : names ≠ []) :
    get_collection_items_where db uf none roles none none none none
      (some (.l names)) none none =
      .ok [.collEqItemCollection, .collectionAvailable, .itemAvailable,
           _add_roles_constraint (roles.getD []),
           .collectionIdIn ((db.collections.filter
             (fun c => names.contains c.identifier)).map Collection.id)] := by
  unfold get_collection_items_where
  simp [optStrTruthy, optSolTruthy, StrOrList.truthy, StrOrList.toList, h,
    Bind.bind, Except.bind, Pure.pure, Except.pure]

/-- C9: when the supplied collections identifiers match no available
collection, the resolved-id membership plus the availability constraint can
be satisfied by no row, so the call returns an empty result and no error —
unmatched identifiers are silently dropped. -/
theorem C9_unmatched_collections (db : Db) (sem : ExtSem) (uf : Bool)
    (roles : Option (List String)) (names : List String) (page limit maxLimit : Nat)
    (hnodup : (db.collections.map Collection.id).Nodup)
    (hnames : names ≠ [])
    (hmatch : ∀ c ∈ db.collections, c.is_available = true →
      names.contains c.identifier = false) :
    get_collection_items db sem uf none roles none none none none
      (some (.l names)) none none page limit maxLimit = .ok [] := by
  unfold get_collection_items
  rw [where_collections_only db uf roles names hnames]
  simp only [Bind.bind, Except.bind, Pure.pure, Except.pure, Except.ok.injEq]
  have hfil : (rowsOf db).filter (fun r =>
      ([Cond.collEqItemCollection, Cond.collectionAvailable, Cond.itemAvailable,
        _add_roles_constraint (roles.getD []),
        Cond.collectionIdIn ((db.collections.filter
          (fun c => names.contains c.identifier)).map Collection.id)].all
        (evalCond sem r))) = [] := by
    rw [List.filter_eq_nil_iff]
    intro r hr
    simp only [rowsOf, List.mem_flatMap, List.mem_map] at hr
    obtain ⟨c, hc, i, hi, hri⟩ := hr
    intro hall
    simp only [List.all_cons, List.all_nil, Bool.and_true, Bool.and_eq_true] at hall
    obtain ⟨-, hav, -, -, hin⟩ := hall
    rw [← hri] at hav hin
    simp only [evalCond] at hav hin
    have hmem : c.id ∈ (db.collections.filter
        (fun c => names.contains c.identifier)).map Collection.id := by
      simpa using hin
    simp only [List.mem_map, List.mem_filter] at hmem
    obtain ⟨c', ⟨hc'mem, hc'names⟩, hc'id⟩ := hmem
    have : c' = c := List.inj_on_of_nodup_map hnodup hc'mem hc hc'id
    rw [this] at hc'names
    rw [hmatch c hc hav] at hc'names
    exact Bool.false_ne_true hc'names
  rw [hfil]
  simp [paginate]

/-- C9 (witness): a database with one available collection and a name list
matching nothing yields the empty result. -/
theorem C9_witness :
    (["Landsat-NOPE-1"] : List String) ≠ [] ∧
    get_collection_items demoDb trivSem true none none none none none none
      (some (.l ["Landsat-NOPE-1"])) none none 1 10 1000 = .ok [] :=
  ⟨by decide,
   C9_unmatched_collections demoDb trivSem true none ["Landsat-NOPE-1"] 1 10 1000
     (by decide) (by decide) (by decide)⟩

/-- Reading back the key just set. -/
theorem dictGet_dictSet_self (d : PyDict) (k : String) (v : JVal) :
    dictGet (dictSet d k v) k = some v := by
  induction d with
  | nil => simp [dictSet, dictGet]
  | cons kv rest ih =>
    by_cases h : kv.1 = k
    · simp [dictSet, h, dictGet]
    · simp [dictSet, h, dictGet, ih]

/-- Setting one key leaves every other key unchanged. -/
theorem dictGet_dictSet_ne (d : PyDict) (k k' : String) (v : JVal) (h : k' ≠ k) :
    dictGet (dictSet d k v) k' = dictGet d k' := by
  have hne : k ≠ k' := Ne.symm h
  induction d with
  | nil => simp [dictSet, dictGet, hne]
  | cons kv rest ih =>
    by_cases hk : kv.1 = k
    · simp [dictSet, dictGet, hk, hne]
    · simp [dictSet, dictGet, hk, ih]

/-- The `eo:bands` attachment loop never touches the `href` entry. -/
theorem eoAttach_preserves_href (key : String) (bs : List PyDict) (v : PyDict) :
    dictGet (bs.foldl (fun v band => if bandNameIs band key
        then dictSet v "eo:bands" (.arr [.obj band]) else v) v) "href" =
      dictGet v "href" := by
  induction bs generalizing v with
  | nil => rfl
  | cons b rest ih =>
    rw [List.foldl_cons]
    by_cases hb : bandNameIs b key
    · rw [if_pos hb, ih]
      exact dictGet_dictSet_ne v "eo:bands" "href" _ (by decide)
    · rw [if_neg hb, ih]

/-- With the empty base URL and no preserved query string, the per-asset
rewriting leaves the stored href untouched. -/
theorem processOneAsset_href (eoBands : Option (List PyDict)) (key : String)
    (v v' : PyDict) (h : processOneAsset "" "" eoBands key v = .ok v') :
    dictGet v' "href" = dictGet v "href" := by
  unfold processOneAsset at h
  cases hd : dictGet v "href" with
  | none =>
    rw [hd] at h
    exact absurd h (by simp [Bind.bind, Except.bind, throw, throwThe, MonadExceptOf.throw])
  | some jv =>
    cases jv with
    | str hs =>
      rw [hd] at h
      simp only [Bind.bind, Except.bind, Pure.pure, Except.pure] at h
      have hurl : urljoin "" (hs ++ "") = hs := by
        simp [urljoin, String.append_empty]
      cases eoBands with
      | none =>
        simp only [Except.ok.injEq] at h
        subst h
        simp [urljoin, dictGet_dictSet_self, hd]
      | some bs =>
        simp only [Except.ok.injEq] at h
        subst h
        simp [eoAttach_preserves_href, urljoin, dictGet_dictSet_self, hd]
    | null =>
      rw [hd] at h
      exact absurd h (by simp [Bind.bind, Except.bind, throw, throwThe, MonadExceptOf.throw])
    | bool b =>
      rw [hd] at h
      exact absurd h (by simp [Bind.bind, Except.bind, throw, throwThe, MonadExceptOf.throw])
    | num q =>
      rw [hd] at h
      exact absurd h (by simp [Bind.bind, Except.bind, throw, throwThe, MonadExceptOf.throw])
    | arr xs =>
      rw [hd] at h
      exact absurd h (by simp [Bind.bind, Except.bind, throw, throwThe, MonadExceptOf.throw])
    | obj fs =>
      rw [hd] at h
      exact absurd h (by simp [Bind.bind, Except.bind, throw, throwThe, MonadExceptOf.throw])

/-- Pointwise href preservation through the asset mapping loop. -/
theorem mapMList_assets_href (eoBands : Option (List PyDict)) :
    ∀ (l l' : List (String × PyDict)),
    mapMList (fun kv => (processOneAsset "" "" eoBands kv.1 kv.2).map
      (fun v => (kv.1, v))) l = .ok l' →
    l'.map (fun kv => (kv.1, dictGet kv.2 "href")) =
      l.map (fun kv => (kv.1, dictGet kv.2 "href")) := by
  intro l
  induction l with
  | nil =>
    intro l' h
    simp only [mapMList, Except.ok.injEq] at h
    rw [← h]
  | cons x xs ih =>
    intro l' h
    simp only [mapMList] at h
    obtain ⟨y, hy, h2⟩ := bindEqOk h
    obtain ⟨ys, hys, h3⟩ := bindEqOk h2
    simp only [Except.ok.injEq] at h3
    subst h3
    cases hx : processOneAsset "" "" eoBands x.1 x.2 with
    | error e => rw [hx] at hy; simp [Except.map] at hy
    | ok vx =>
      rw [hx] at hy
      simp only [Except.map, Except.ok.injEq] at hy
      subst hy
      simp [List.map_cons, ih ys hys, processOneAsset_href eoBands x.1 x.2 vx hx]

/-- `assetsStep` with the empty base and query string: the produced assets
(when present) carry exactly the stored keys and hrefs. -/
theorem assetsStep_href (eoBands : Option (List PyDict))
    (assets out : Option (List (String × PyDict)))
    (h : assetsStep "" "" eoBands assets = .ok out) :
    out.map (fun l => l.map (fun kv => (kv.1, dictGet kv.2 "href"))) =
      assets.bind (fun l => if l.isEmpty then none
        else some (l.map (fun kv => (kv.1, dictGet kv.2 "href")))) := by
  cases assets with
  | none =>
    simp only [assetsStep, Pure.pure, Except.pure, Except.ok.injEq] at h
    subst h
    rfl
  | some l =>
    by_cases hl : l.isEmpty = true
    · simp only [assetsStep, hl, Bool.not_true, Bool.false_eq_true, if_false,
        Pure.pure, Except.pure, Except.ok.injEq] at h
      subst h
      simp [hl]
    · rw [Bool.not_eq_true] at hl
      simp only [assetsStep, hl, Bool.not_false, if_true] at h
      cases hm : mapMList (fun kv => (processOneAsset "" "" eoBands kv.1 kv.2).map
          (fun v => (kv.1, v))) l with
      | error e => rw [hm] at h; simp [Except.map] at h
      | ok l2 =>
        rw [hm] at h
        simp only [Except.map, Except.ok.injEq] at h
        subst h
        simp [hl, mapMList_assets_href eoBands l l2 hm]

/-- A metadata key starting with `storage:` forces the empty asset base. -/
theorem resolve_storage_empty (fileRoot : String) (m : PyDict)
    (h : m.any (fun kv => pyStartsWith kv.1 "storage:") = true) :
    _resolve_item_file_root fileRoot (some m) = "" := by
  simp [_resolve_item_file_root, h]

/-- C6 (amended): when some item-metadata key starts with `storage:`, the
item enrichment pipeline resolves the asset base URL to the empty string and
every asset of the produced feature keeps the exact stored href (here with no
preserved query string); and the feature's extension list includes the
storage extension when the finished properties carry `storage:platform` with
a truthy value. -/
theorem C6_storage_assets (stacUrl fileRoot : String) (procsOf : Nat → List ProcRec)
    (bandsTable : List Band) (boundsOf : String → List ℚ) (i : ItemRow) (m : PyDict)
    (f : Feature) (hm : i.item_meta = some m)
    (hst : m.any (fun kv => pyStartsWith kv.1 "storage:") = true)
    (hok : makeFeature stacUrl fileRoot procsOf bandsTable boundsOf "" i = .ok f) :
    _resolve_item_file_root fileRoot i.item_meta = "" ∧
    f.assets.map (fun l => l.map (fun kv => (kv.1, dictGet kv.2 "href"))) =
      i.assets.bind (fun l => if l.isEmpty then none
        else some (l.map (fun kv => (kv.1, dictGet kv.2 "href")))) ∧
    ((dictGet f.properties "storage:platform").elim false JVal.truthy = true →
      "storage-ext" ∈ f.stac_extensions) := by
  have hres : _resolve_item_file_root fileRoot i.item_meta = "" := by
    rw [hm]
    exact resolve_storage_empty fileRoot m hst
  unfold makeFeature at hok
  obtain ⟨g, hg, h1⟩ := bindEqOk hok
  obtain ⟨pb, hpb, h2⟩ := bindEqOk h1
  obtain ⟨ao, hao, h3⟩ := bindEqOk h2
  simp only [Pure.pure, Except.pure, Except.ok.injEq] at h3
  subst h3
  rw [hres] at hao
  refine ⟨hres, ?_, ?_⟩
  · exact assetsStep_href pb.2 i.assets ao hao
  · intro ht
    simp only [extsOf, ht, if_true]
    simp [get_stac_extensions, extensionRegistry]

/-- C6 (counterexample): an item whose metadata has `storage:platform` with a
falsy (empty-string) value still gets the empty base URL — its asset hrefs
stay exactly as stored — but the storage extension is NOT added to
`stac_extensions`, refuting "included when `storage:platform` is present". -/
theorem C6_counterexample :
    ((makeFeature "http://stac" "http://files" (fun _ => []) [] (fun _ => []) ""
        demoFalsyStorageRow).map
      (fun f => (f.assets.map (fun l => l.map (fun kv => (kv.1, dictGet kv.2 "href"))),
                 f.stac_extensions))) =
      .ok (some [("B1", some (JVal.str "s3://bucket/scene/B1.tif"))], []) ∧
    dictGet [("storage:platform", JVal.str "")] "storage:platform" =
      some (JVal.str "") :=
  ⟨rfl, rfl⟩

/-- C6 (witness): concrete run with a truthy `storage:platform` value — the
asset href survives untouched and the storage extension is present. -/
theorem C6_witness :
    demoStorageFeature.assets.map (fun l => l.map (fun kv => (kv.1, dictGet kv.2 "href"))) =
      demoStorageRow.assets.bind (fun l => if l.isEmpty then none
        else some (l.map (fun kv => (kv.1, dictGet kv.2 "href")))) ∧
    "storage-ext" ∈ demoStorageFeature.stac_extensions :=
  have h := C6_storage_assets "http://stac" "http://files" (fun _ => []) [] (fun _ => [])
    demoStorageRow demoStorageMeta demoStorageFeature rfl rfl rfl
  ⟨h.2.1, h.2.2 rfl⟩
